import Mathlib

/-!
Shallow embedding of the executor bridge of the CodeChecker VS Code plugin
(`src/backend/executor/bridge.ts`) together with a model of the process
execution scheduler it drives.  The bridge functions
(`getCompileCommandsPath`, `getAnalyzeCmdLine`, `getLogCmdLine`,
`analyzeOnSave`, `analyzeCurrentFile`, `analyzeFile`, `analyzeProject`,
`stopAnalysis`, `updateDatabasePaths`) are translated from the TypeScript
source.  The `ExecutorManager` / `ScheduledProcess` scheduler the bridge
calls into is not part of the given sources, so its queue operations and
driver loop are modelled from the specification (sections 4.3 and 4.4).
-/

namespace CodeCheckerBridge

/-! ## Host environment

The pieces of the VS Code host the bridge reads: workspace folders, the
settings store, the file system, and the active editor. -/

/-- Model of `path.join` on two segments (POSIX separator). -/
def pathJoin (a b : String) : String := a ++ "/" ++ b

/-- The host environment visible to the executor bridge.

* `workspaceFolders` — `workspace.workspaceFolders`, the `fsPath` of each
  open folder;
* `config` — string-valued settings lookup, keyed by configuration
  sections such as `codechecker.backend` and key such as `outputFolder`;
  `none` models an unset (`undefined`) setting;
* `runOnSave` — the `runOnSave` boolean read from the `codechecker.executor` configuration;
* `fsExists` — `fs.existsSync`;
* `activeEditorFile` — `window.activeTextEditor?.document.uri`. -/
structure VsEnv where
  workspaceFolders : List String
  config : String → String → Option String
  runOnSave : Option Bool
  fsExists : String → Bool
  activeEditorFile : Option String

/-- Modelled from the spec: the configuration resolver
(`utils/config.ts`, not among the given sources) "supplies the command
line to run and its working directory; may return not configured".  It is
modelled as a plain settings lookup returning the configured string or
`none`. -/
def getConfigAndReplaceVariables (env : VsEnv) (sec key : String) : Option String :=
  env.config sec key

/-- JavaScript truthiness of a `string | undefined` value:
`undefined` and the empty string are falsy. -/
def strTruthy : Option String → Bool
  | none => false
  | some s => !s.isEmpty

/-- Translation of `ExecutorBridge.getCompileCommandsPath` from the source.
The first component is the returned path (`undefined` as `none`); the
second component is the list of strings fired on the `bridgeMessages`
event channel, in order. -/
def getCompileCommandsPath (env : VsEnv) (databasePaths : List (Option String)) :
    Option String × List String :=
  match env.workspaceFolders with
  | [] => (none, [])
  | _ :: _ =>
    match databasePaths.find? (fun fp =>
        match fp with
        | some p => !p.isEmpty && env.fsExists p
        | none => false) with
    | some (some filePath) =>
      (some filePath, [">>> Database found at path: " ++ filePath ++ "\n"])
    | _ =>
      (none, ">>> No database found in the following paths:\n" ::
        databasePaths.map (fun fp =>
          match fp with
          | some filePath =>
            if filePath.isEmpty then ">>>   <no path set in settings>\n"
            else ">>>   " ++ filePath ++ "\n"
          | none => ">>>   <no path set in settings>\n"))

/-- Translation of `ExecutorBridge.getAnalyzeCmdLine` from the source.  The
first component is the returned command line (`undefined` as `none`); the
second component is the list of user-facing warnings raised via
`window.showWarningMessage`, in order. -/
def getAnalyzeCmdLine (env : VsEnv) (databasePaths : List (Option String))
    (files : List String) : Option String × List String :=
  match env.workspaceFolders with
  | [] => (none, [])
  | workspaceFolder :: _ =>
    let ccPath := (getConfigAndReplaceVariables env "codechecker.executor" "executablePath").getD
      "CodeChecker"
    let ccFolder := (getConfigAndReplaceVariables env "codechecker.backend" "outputFolder").getD
      (pathJoin workspaceFolder ".codechecker")
    let ccArguments := (getConfigAndReplaceVariables env "codechecker.executor" "arguments").getD ""
    let ccThreads := env.config "codechecker.executor" "threadCount"
    match (getCompileCommandsPath env databasePaths).1 with
    | none =>
      (none, ["No compilation database found, CodeChecker not started - see logs for details"])
    | some ccCompileCmd =>
      let filePaths :=
        if files.isEmpty then ""
        else "--file " ++ String.intercalate " " (files.map (fun f => "\"" ++ f ++ "\""))
      (some (
        ccPath ++ " analyze" ++ " " ++
        ("\"" ++ ccCompileCmd ++ "\"") ++ " " ++
        ("--output \"" ++ ccFolder ++ "\"") ++ " " ++
        (if strTruthy ccThreads then "-j " ++ ccThreads.getD "" else "") ++ " " ++
        ccArguments ++ " " ++
        filePaths), [])

/-- Translation of `ExecutorBridge.getLogCmdLine` from the source. -/
def getLogCmdLine (env : VsEnv) : Option String :=
  match env.workspaceFolders with
  | [] => none
  | workspaceFolder :: _ =>
    let ccPath := (getConfigAndReplaceVariables env "codechecker.executor" "executablePath").getD
      "CodeChecker"
    let ccFolder := (getConfigAndReplaceVariables env "codechecker.backend" "outputFolder").getD
      (pathJoin workspaceFolder ".codechecker")
    let ccCompileCmd := pathJoin ccFolder "compile_commands.json"
    some (ccPath ++ " log" ++ " " ++ ("--output \"" ++ ccCompileCmd ++ "\"") ++ " " ++
      "--build \"make\"")

/-! ## Scheduler data model

The `ExecutorManager` and `ScheduledProcess` classes live outside the
given sources; the bridge only calls `addToQueue`, `clearQueue`,
`activeProcess` and `killProcess` on them.  Their queue-level behaviour
is modelled from the specification (section 4.3, Execution Queue). -/

/-- Modelled from the spec: the `ProcessType` tag on a scheduled unit, "a
small tag classifying the purpose of the run (e.g. analyze vs
log/generate-database)".  The enumeration is open-ended in the spec, so a
third constructor stands for any further kind. -/
inductive ProcessType
  | analyze
  | logGeneration
  | other
deriving DecidableEq, Repr

/-- Modelled from the spec: a Scheduled Unit, "an immutable description
of one external-process invocation: command line, working directory, and
a small tag".  The bridge constructs these as
`new ScheduledProcess(commandLine, { processType })`. -/
structure ScheduledProcess where
  commandLine : String
  processType : ProcessType
deriving DecidableEq, Repr

/-- Insertion policies of the execution queue (spec section 4.3); the
bridge passes them as the strings `prepend` and `replace`. -/
inductive QueuePolicy
  | append
  | prepend
  | replace
deriving DecidableEq, Repr

/-- Modelled from the spec: the effect of `enqueue(unit, policy)` on the
pending list alone — `append` places the unit at the tail, `prepend` at
the head, `replace` discards every pending unit and makes the new unit
the sole pending entry. -/
def enqueuePending (pending : List ScheduledProcess) (unit : ScheduledProcess)
    (policy : QueuePolicy) : List ScheduledProcess :=
  match policy with
  | .append => pending ++ [unit]
  | .prepend => unit :: pending
  | .replace => [unit]

/-- Modelled from the spec: the observable state of the `ExecutorManager`
as the bridge sees it — the ordered pending units, the at-most-one active
unit, and whether cancellation of the active process has been requested
(`killProcess`). -/
structure ExecutorState where
  pending : List ScheduledProcess
  active : Option ScheduledProcess
  killRequested : Bool
deriving DecidableEq, Repr

/-- Modelled from the spec: `ExecutorManager.addToQueue(process, policy)`
is `enqueue(unit, policy)` of spec section 4.3; no insertion policy
touches the `active` slot or the cancellation flag. -/
def addToQueue (s : ExecutorState) (unit : ScheduledProcess) (policy : QueuePolicy) :
    ExecutorState :=
  { s with pending := enqueuePending s.pending unit policy }

/-- Modelled from the spec: `ExecutorManager.clearQueue(tag)` is
`clearByTag(tag)` — "removes every pending unit whose tag matches; does
not touch active". -/
def clearQueue (s : ExecutorState) (tag : ProcessType) : ExecutorState :=
  { s with pending := s.pending.filter (fun u => u.processType ≠ tag) }

/-- Modelled from the spec: `ExecutorManager.killProcess()` "requests
cancellation of the active process via the Process Runner"; the process
stays in the active slot until its completion signal arrives. -/
def killProcess (s : ExecutorState) : ExecutorState :=
  { s with killRequested := true }

/-! ## Bridge operations on the scheduler (translated from the source) -/

/-- Translation of `ExecutorBridge.stopAnalysis` from the source: clear
analyze-tagged pending units, then kill the active process exactly when
its process type is `analyze`. -/
def stopAnalysis (s : ExecutorState) : ExecutorState :=
  let s1 := clearQueue s ProcessType.analyze
  match s1.active with
  | some u => if u.processType = ProcessType.analyze then killProcess s1 else s1
  | none => s1

/-- Translation of `ExecutorBridge.analyzeFile` from the source: build the
analyze command line for the single file; on `undefined` return without
submitting, otherwise prepend an analyze-tagged scheduled process.  The
second component is the list of user-facing warnings raised. -/
def analyzeFile (env : VsEnv) (databasePaths : List (Option String)) (file : String)
    (s : ExecutorState) : ExecutorState × List String :=
  let r := getAnalyzeCmdLine env databasePaths [file]
  match r.1 with
  | none => (s, r.2)
  | some commandLine =>
    (addToQueue s ⟨commandLine, ProcessType.analyze⟩ QueuePolicy.prepend, r.2)

/-- Translation of `ExecutorBridge.analyzeCurrentFile` from the source:
analyze the file of the active editor when there is one. -/
def analyzeCurrentFile (env : VsEnv) (databasePaths : List (Option String))
    (s : ExecutorState) : ExecutorState × List String :=
  match env.activeEditorFile with
  | none => (s, [])
  | some currentFile => analyzeFile env databasePaths currentFile s

/-- Translation of `ExecutorBridge.analyzeOnSave` from the source: gated on
the `runOnSave` setting and on a discoverable compilation database; fails
silently (no submission, no warning) when either gate fails. -/
def analyzeOnSave (env : VsEnv) (databasePaths : List (Option String))
    (s : ExecutorState) : ExecutorState × List String :=
  let canAnalyzeOnSave := env.runOnSave
  let ccExists := (getCompileCommandsPath env databasePaths).1.isSome
  if canAnalyzeOnSave ≠ some true ∨ ccExists = false then (s, [])
  else analyzeCurrentFile env databasePaths s

/-- Translation of `ExecutorBridge.analyzeProject` from the source: stop the
running analysis first, then submit a whole-project analyze run with the
`replace` policy when a command line could be formed. -/
def analyzeProject (env : VsEnv) (databasePaths : List (Option String))
    (s : ExecutorState) : ExecutorState × List String :=
  let s1 := stopAnalysis s
  let r := getAnalyzeCmdLine env databasePaths []
  match r.1 with
  | none => (s1, r.2)
  | some commandLine =>
    (addToQueue s1 ⟨commandLine, ProcessType.analyze⟩ QueuePolicy.replace, r.2)

/-! ## Database path watching (translated from the source) -/

/-- Observable reactions a bridge event handler can perform.
`fireDatabaseLocationChanged` models `this._databaseLocationChanged.fire()`;
`reResolveConfiguration` models re-running the configuration lookup
(`updateDatabasePaths` / settings reads) inside the handler, which the
source handlers never do. -/
inductive BridgeEffect
  | fireDatabaseLocationChanged
  | reResolveConfiguration
deriving DecidableEq, Repr

/-- A file system watcher created by `updateDatabasePaths`: the watched
path plus the effects its `onDidCreate` and `onDidDelete` handlers
perform, in order. -/
structure DbWatch where
  watchPath : String
  onDidCreate : List BridgeEffect
  onDidDelete : List BridgeEffect
deriving DecidableEq, Repr

/-- Translation of `ExecutorBridge.updateDatabasePaths` from the source.
Here `prev` is the previous `(databasePaths, databaseWatches)` state of the bridge,
kept unchanged by the early return when no workspace folder is open.
Otherwise the three candidate database paths are recomputed from settings
and a watcher is created for each defined path, both of whose handlers do
nothing but fire the `databaseLocationChanged` event. -/
def updateDatabasePaths (env : VsEnv) (prev : List (Option String) × List DbWatch) :
    List (Option String) × List DbWatch :=
  match env.workspaceFolders with
  | [] => prev
  | workspaceFolder :: _ =>
    let ccFolder := (getConfigAndReplaceVariables env "codechecker.backend" "outputFolder").getD
      (pathJoin workspaceFolder ".codechecker")
    let databasePaths : List (Option String) := [
      getConfigAndReplaceVariables env "codechecker.backend" "databasePath",
      some (pathJoin ccFolder "compile_commands.json"),
      some (pathJoin ccFolder "compile_cmd.json")]
    let databaseWatches := (databasePaths.filterMap id).map (fun p =>
      { watchPath := p,
        onDidCreate := [BridgeEffect.fireDatabaseLocationChanged],
        onDidDelete := [BridgeEffect.fireDatabaseLocationChanged] })
    (databasePaths, databaseWatches)

/-! ## Scheduler driver model (spec sections 4.3–4.4)

The driver loop itself is outside the given sources.  It is modelled from
the spec as an event-driven machine: `live` is the list of processes that
have been started and whose completion signal has not yet fired (the
live handles of the Process Runner), `pending` the queue; a process is started
only when nothing is live, which the spec calls the core correctness
guarantee. -/

/-- State of the scheduler driver: pending units plus the started-but-not
yet-completed processes. -/
structure SchedState where
  pending : List ScheduledProcess
  live : List ScheduledProcess
deriving DecidableEq, Repr

/-- Modelled from the spec: the drain step — "while takeNext() yields a
unit, mark it active, start it"; `takeNext` "atomically removes and
returns the head of pending if and only if active is empty; otherwise
returns nothing". -/
def drain (s : SchedState) : SchedState :=
  match s.live, s.pending with
  | [], unit :: rest => { pending := rest, live := [unit] }
  | _, _ => s

/-- Events driving the scheduler: a `submit` call (spec section 4.4:
"delegates to ExecutionQueue.enqueue, then triggers a drain attempt") or
the completion signal of the oldest live process (which clears the active
slot and triggers the drain-again step). -/
inductive SchedEvent
  | submit (unit : ScheduledProcess) (policy : QueuePolicy)
  | complete
deriving DecidableEq, Repr

/-- Modelled from the spec: one step of the single-threaded event loop. -/
def schedStep (s : SchedState) : SchedEvent → SchedState
  | .submit unit policy => drain { s with pending := enqueuePending s.pending unit policy }
  | .complete => drain { s with live := s.live.drop 1 }

/-- Run the scheduler from a state through a sequence of events. -/
def schedRun (s : SchedState) (events : List SchedEvent) : SchedState :=
  events.foldl schedStep s

/-- The initial scheduler state: empty queue, no live process. -/
def schedInit : SchedState := { pending := [], live := [] }

/-! ## Theorems -/

/-- The drain step never raises the number of live processes above one:
it only starts a process when nothing is live, and then starts exactly
one. -/
theorem drain_live_le_one (s : SchedState) (h : s.live.length ≤ 1) :
    (drain s).live.length ≤ 1 := by
  unfold drain
  cases hl : s.live with
  | nil =>
    cases hp : s.pending with
    | nil => simp [hl, hp]
    | cons u rest => simp [hl, hp]
  | cons u rest => simpa [hl] using h

/-- Each event-loop step preserves the at-most-one-live invariant. -/
theorem schedStep_live_le_one (s : SchedState) (e : SchedEvent) (h : s.live.length ≤ 1) :
    (schedStep s e).live.length ≤ 1 := by
  cases e with
  | submit unit policy =>
    exact drain_live_le_one _ h
  | complete =>
    refine drain_live_le_one _ ?_
    simp only [List.length_drop]
    omega

/-- Running any event sequence from an invariant state keeps the
invariant. -/
theorem schedRun_live_le_one (s : SchedState) (events : List SchedEvent)
    (h : s.live.length ≤ 1) : (schedRun s events).live.length ≤ 1 := by
  induction events generalizing s with
  | nil => simpa [schedRun] using h
  | cons e rest ih =>
    simpa [schedRun] using ih (schedStep s e) (schedStep_live_le_one s e h)

/-- C1: at most one external process is ever executing at a time — for
every sequence of submit and completion events processed by the
event loop of the scheduler from the initial state, the set of
started-but-not-yet-completed processes never contains two members, so no
two completion signals can ever correspond to simultaneously-live
processes. -/
theorem atMostOneActive (events : List SchedEvent) :
    (schedRun schedInit events).live.length ≤ 1 :=
  schedRun_live_le_one schedInit events (by simp [schedInit])

/-- The operation `stopAnalysis` removes exactly the analyze-tagged pending units. -/
theorem stopAnalysis_pending (s : ExecutorState) :
    (stopAnalysis s).pending = s.pending.filter (fun u => u.processType ≠ ProcessType.analyze) := by
  unfold stopAnalysis clearQueue killProcess
  cases s.active with
  | none => rfl
  | some u =>
    by_cases hu : u.processType = ProcessType.analyze <;> simp [hu]

/-- The operation `stopAnalysis` never touches the active slot. -/
theorem stopAnalysis_active (s : ExecutorState) : (stopAnalysis s).active = s.active := by
  unfold stopAnalysis clearQueue killProcess
  cases s.active with
  | none => rfl
  | some u =>
    by_cases hu : u.processType = ProcessType.analyze <;> simp [hu]

/-- With no kill request outstanding, `stopAnalysis` requests
cancellation exactly when an analyze-tagged process is active. -/
theorem stopAnalysis_killRequested (s : ExecutorState) (h : s.killRequested = false) :
    ((stopAnalysis s).killRequested = true ↔
      ∃ u, s.active = some u ∧ u.processType = ProcessType.analyze) := by
  unfold stopAnalysis clearQueue killProcess
  cases ha : s.active with
  | none => simp [h]
  | some u =>
    by_cases hu : u.processType = ProcessType.analyze <;> simp [hu, h]

/-- No insertion policy of `addToQueue` touches the active slot. -/
theorem addToQueue_active (s : ExecutorState) (unit : ScheduledProcess) (policy : QueuePolicy) :
    (addToQueue s unit policy).active = s.active := rfl

/-- No insertion policy of `addToQueue` requests a cancellation. -/
theorem addToQueue_killRequested (s : ExecutorState) (unit : ScheduledProcess)
    (policy : QueuePolicy) : (addToQueue s unit policy).killRequested = s.killRequested := rfl

/-- C3: the stop-analysis operation removes every pending analyze-tagged
unit (and only those), leaves the active slot itself untouched, and
requests cancellation of the active process if and only if the active
process exists and its tag is analyze — so an active process of any other
tag is never killed by it. -/
theorem stopAnalysis_spec (s : ExecutorState) (h : s.killRequested = false) :
    (stopAnalysis s).pending = s.pending.filter (fun u => u.processType ≠ ProcessType.analyze)
    ∧ (stopAnalysis s).active = s.active
    ∧ ((stopAnalysis s).killRequested = true ↔
        ∃ u, s.active = some u ∧ u.processType = ProcessType.analyze) :=
  ⟨stopAnalysis_pending s, stopAnalysis_active s, stopAnalysis_killRequested s h⟩

/-- A concrete scheduler state with an analyze-tagged active process and
a mixed pending queue. -/
def stopWitnessState : ExecutorState :=
  { pending := [⟨"a", ProcessType.analyze⟩, ⟨"b", ProcessType.logGeneration⟩,
                ⟨"c", ProcessType.analyze⟩],
    active := some ⟨"d", ProcessType.analyze⟩,
    killRequested := false }

/-- Witness for C3 at a concrete state. -/
theorem stopAnalysis_spec_witness :
    (stopAnalysis stopWitnessState).pending =
      stopWitnessState.pending.filter (fun u => u.processType ≠ ProcessType.analyze)
    ∧ (stopAnalysis stopWitnessState).active = stopWitnessState.active
    ∧ ((stopAnalysis stopWitnessState).killRequested = true ↔
        ∃ u, stopWitnessState.active = some u ∧ u.processType = ProcessType.analyze) :=
  stopAnalysis_spec stopWitnessState rfl

/-- C2: a whole-project analysis request that yields a command line first
runs the separate stop operation — clearing every pending analyze-tagged
unit and requesting cancellation exactly when an analyze-tagged process
is active — and only then enqueues the project-wide unit with the
replace-all policy; the replace-all enqueue itself touches neither the
active slot nor the cancellation flag. -/
theorem analyzeProject_spec (env : VsEnv) (databasePaths : List (Option String))
    (s : ExecutorState) (cmd : String)
    (h : (getAnalyzeCmdLine env databasePaths []).1 = some cmd) :
    analyzeProject env databasePaths s =
      (addToQueue (stopAnalysis s) ⟨cmd, ProcessType.analyze⟩ QueuePolicy.replace,
        (getAnalyzeCmdLine env databasePaths []).2)
    ∧ (∀ u ∈ (stopAnalysis s).pending, u.processType ≠ ProcessType.analyze)
    ∧ (s.killRequested = false →
        ((stopAnalysis s).killRequested = true ↔
          ∃ u, s.active = some u ∧ u.processType = ProcessType.analyze))
    ∧ (∀ t : ExecutorState, ∀ unit : ScheduledProcess,
        (addToQueue t unit QueuePolicy.replace).active = t.active
        ∧ (addToQueue t unit QueuePolicy.replace).killRequested = t.killRequested) := by
  refine ⟨?_, ?_, stopAnalysis_killRequested s, fun t unit => ⟨rfl, rfl⟩⟩
  · unfold analyzeProject
    dsimp only
    rw [h]
  · intro u hu
    rw [stopAnalysis_pending s] at hu
    simpa using (List.mem_filter.mp hu).2

/-- A concrete host environment with one workspace folder, default
settings, and a compilation database present on disk. -/
def envWithDb : VsEnv :=
  { workspaceFolders := ["/ws"],
    config := fun _ _ => none,
    runOnSave := some true,
    fsExists := fun _ => true,
    activeEditorFile := some "/ws/main.cpp" }

/-- Database path candidates for the concrete environment. -/
def dbPathsWithDb : List (Option String) := [some "/ws/compile_commands.json"]

/-- The project-wide analyze command line computed in `envWithDb`. -/
def projectCmd : String := (getAnalyzeCmdLine envWithDb dbPathsWithDb []).1.getD ""

/-- Witness for C2 at a concrete environment and state. -/
theorem analyzeProject_spec_witness :
    analyzeProject envWithDb dbPathsWithDb stopWitnessState =
      (addToQueue (stopAnalysis stopWitnessState) ⟨projectCmd, ProcessType.analyze⟩
        QueuePolicy.replace, (getAnalyzeCmdLine envWithDb dbPathsWithDb []).2)
    ∧ (∀ u ∈ (stopAnalysis stopWitnessState).pending, u.processType ≠ ProcessType.analyze)
    ∧ (stopWitnessState.killRequested = false →
        ((stopAnalysis stopWitnessState).killRequested = true ↔
          ∃ u, stopWitnessState.active = some u ∧ u.processType = ProcessType.analyze))
    ∧ (∀ t : ExecutorState, ∀ unit : ScheduledProcess,
        (addToQueue t unit QueuePolicy.replace).active = t.active
        ∧ (addToQueue t unit QueuePolicy.replace).killRequested = t.killRequested) :=
  analyzeProject_spec envWithDb dbPathsWithDb stopWitnessState projectCmd rfl

/-- When no compilation database is discoverable, no analyze command
line is formed, whatever files are requested. -/
theorem getAnalyzeCmdLine_none (env : VsEnv) (databasePaths : List (Option String))
    (files : List String) (hdb : (getCompileCommandsPath env databasePaths).1 = none) :
    (getAnalyzeCmdLine env databasePaths files).1 = none := by
  unfold getAnalyzeCmdLine
  cases hwf : env.workspaceFolders with
  | nil => rfl
  | cons wf rest =>
    dsimp only
    rw [hdb]

/-- With a workspace folder open and no compilation database
discoverable, `getAnalyzeCmdLine` raises exactly one user-facing
warning. -/
theorem getAnalyzeCmdLine_warnings_missingDb (env : VsEnv)
    (databasePaths : List (Option String)) (files : List String)
    (hwf : env.workspaceFolders ≠ [])
    (hdb : (getCompileCommandsPath env databasePaths).1 = none) :
    (getAnalyzeCmdLine env databasePaths files).2 =
      ["No compilation database found, CodeChecker not started - see logs for details"] := by
  unfold getAnalyzeCmdLine
  cases hw : env.workspaceFolders with
  | nil => exact absurd hw hwf
  | cons wf rest =>
    dsimp only
    rw [hdb]

/-- A host environment with no workspace folder open. -/
def envNoWorkspace : VsEnv :=
  { workspaceFolders := [],
    config := fun _ _ => none,
    runOnSave := some true,
    fsExists := fun _ => false,
    activeEditorFile := none }

/-- C4 counterexample: with no workspace folder open, no compilation
database is discoverable and no command line can be formed, yet the
request is dropped with zero user-facing warnings rather than one. -/
theorem analyzeRequest_silentDrop_noWorkspace :
    (getCompileCommandsPath envNoWorkspace []).1 = none
    ∧ (getAnalyzeCmdLine envNoWorkspace [] []).1 = none
    ∧ (getAnalyzeCmdLine envNoWorkspace [] []).2.length = 0 :=
  ⟨rfl, rfl, rfl⟩

/-- C4 (amended): for every analyze request for which no compilation
database is discoverable, getAnalyzeCmdLine returns no command line and
the caller submits nothing; the warning is surfaced exactly once when a
workspace folder is open, while with no workspace folder the request is
dropped silently. -/
theorem analyzeRequest_configurationMissing (env : VsEnv)
    (databasePaths : List (Option String)) (files : List String) (file : String)
    (s : ExecutorState) (hdb : (getCompileCommandsPath env databasePaths).1 = none) :
    (getAnalyzeCmdLine env databasePaths files).1 = none
    ∧ (analyzeFile env databasePaths file s).1 = s
    ∧ (env.workspaceFolders ≠ [] → (getAnalyzeCmdLine env databasePaths files).2.length = 1)
    ∧ (env.workspaceFolders = [] → (getAnalyzeCmdLine env databasePaths files).2 = []) := by
  refine ⟨getAnalyzeCmdLine_none env databasePaths files hdb, ?_, ?_, ?_⟩
  · unfold analyzeFile
    dsimp only
    rw [getAnalyzeCmdLine_none env databasePaths [file] hdb]
  · intro hwf
    rw [getAnalyzeCmdLine_warnings_missingDb env databasePaths files hwf hdb]
    rfl
  · intro hwf
    unfold getAnalyzeCmdLine
    rw [hwf]

/-- A host environment with a workspace folder open but nothing on
disk, so no compilation database is discoverable. -/
def envNoDb : VsEnv :=
  { workspaceFolders := ["/ws"],
    config := fun _ _ => none,
    runOnSave := some true,
    fsExists := fun _ => false,
    activeEditorFile := some "/ws/main.cpp" }

/-- Witness for the amended C4 at a concrete environment. -/
theorem analyzeRequest_configurationMissing_witness :
    (getAnalyzeCmdLine envNoDb dbPathsWithDb ["/ws/main.cpp"]).1 = none
    ∧ (analyzeFile envNoDb dbPathsWithDb "/ws/main.cpp" stopWitnessState).1 = stopWitnessState
    ∧ (envNoDb.workspaceFolders ≠ [] →
        (getAnalyzeCmdLine envNoDb dbPathsWithDb ["/ws/main.cpp"]).2.length = 1)
    ∧ (envNoDb.workspaceFolders = [] →
        (getAnalyzeCmdLine envNoDb dbPathsWithDb ["/ws/main.cpp"]).2 = []) :=
  analyzeRequest_configurationMissing envNoDb dbPathsWithDb ["/ws/main.cpp"] "/ws/main.cpp"
    stopWitnessState rfl

/-- C5: every single-file analyze request that yields a command line is
enqueued at the head of the pending queue (the prepend policy) with the
analyze tag, while the active slot and the cancellation flag are left
untouched — so it runs ahead of everything already queued without
interrupting the currently running process. -/
theorem analyzeFile_prepends (env : VsEnv) (databasePaths : List (Option String))
    (file : String) (s : ExecutorState) (cmd : String)
    (h : (getAnalyzeCmdLine env databasePaths [file]).1 = some cmd) :
    (analyzeFile env databasePaths file s).1.pending =
      ⟨cmd, ProcessType.analyze⟩ :: s.pending
    ∧ (analyzeFile env databasePaths file s).1.active = s.active
    ∧ (analyzeFile env databasePaths file s).1.killRequested = s.killRequested := by
  unfold analyzeFile
  dsimp only
  rw [h]
  exact ⟨rfl, rfl, rfl⟩

/-- The single-file analyze command line computed in `envWithDb`. -/
def fileCmd : String := (getAnalyzeCmdLine envWithDb dbPathsWithDb ["/ws/main.cpp"]).1.getD ""

/-- Witness for C5 at a concrete environment and state. -/
theorem analyzeFile_prepends_witness :
    (analyzeFile envWithDb dbPathsWithDb "/ws/main.cpp" stopWitnessState).1.pending =
      ⟨fileCmd, ProcessType.analyze⟩ :: stopWitnessState.pending
    ∧ (analyzeFile envWithDb dbPathsWithDb "/ws/main.cpp" stopWitnessState).1.active =
        stopWitnessState.active
    ∧ (analyzeFile envWithDb dbPathsWithDb "/ws/main.cpp" stopWitnessState).1.killRequested =
        stopWitnessState.killRequested :=
  analyzeFile_prepends envWithDb dbPathsWithDb "/ws/main.cpp" stopWitnessState fileCmd rfl

/-- C6: the on-save trigger submits nothing and raises no user-facing
notification unless the run-on-save flag is enabled and a compilation
database is discoverable — if either gate fails, the scheduler state is
returned unchanged with no warning. -/
theorem analyzeOnSave_gated (env : VsEnv) (databasePaths : List (Option String))
    (s : ExecutorState)
    (h : env.runOnSave ≠ some true ∨ (getCompileCommandsPath env databasePaths).1 = none) :
    analyzeOnSave env databasePaths s = (s, []) := by
  unfold analyzeOnSave
  dsimp only
  rw [if_pos]
  rcases h with h | h
  · exact Or.inl h
  · exact Or.inr (by simp [h])

/-- The concrete environment with the run-on-save flag disabled. -/
def envNoSave : VsEnv :=
  { envWithDb with runOnSave := some false }

/-- Witness for C6 at a concrete environment and state. -/
theorem analyzeOnSave_gated_witness :
    analyzeOnSave envNoSave dbPathsWithDb stopWitnessState = (stopWitnessState, []) :=
  analyzeOnSave_gated envNoSave dbPathsWithDb stopWitnessState (Or.inl (by decide))

/-- C7: for every database path watched after `updateDatabasePaths`, the
registered create handler and the registered delete handler each do
exactly one thing — fire the `databaseLocationChanged` event; in
particular neither handler re-resolves the configuration itself.  The
previous watch list is assumed to satisfy the same property (it does
initially: the bridge starts with no watches). -/
theorem updateDatabasePaths_watchers (env : VsEnv)
    (prev : List (Option String) × List DbWatch)
    (hprev : ∀ w ∈ prev.2, w.onDidCreate = [BridgeEffect.fireDatabaseLocationChanged]
      ∧ w.onDidDelete = [BridgeEffect.fireDatabaseLocationChanged]) :
    ∀ w ∈ (updateDatabasePaths env prev).2,
      w.onDidCreate = [BridgeEffect.fireDatabaseLocationChanged]
      ∧ w.onDidDelete = [BridgeEffect.fireDatabaseLocationChanged] := by
  intro w hw
  unfold updateDatabasePaths at hw
  split at hw
  · exact hprev w hw
  · dsimp only at hw
    rcases List.mem_map.mp hw with ⟨p, _, hp⟩
    rw [← hp]
    exact ⟨rfl, rfl⟩

/-- The first watch created by `updateDatabasePaths` in `envWithDb`. -/
def watchW : DbWatch :=
  { watchPath := "/ws/.codechecker/compile_commands.json",
    onDidCreate := [BridgeEffect.fireDatabaseLocationChanged],
    onDidDelete := [BridgeEffect.fireDatabaseLocationChanged] }

/-- Witness for C7 at a concrete environment and watch. -/
theorem updateDatabasePaths_watchers_witness :
    watchW.onDidCreate = [BridgeEffect.fireDatabaseLocationChanged]
    ∧ watchW.onDidDelete = [BridgeEffect.fireDatabaseLocationChanged] :=
  updateDatabasePaths_watchers envWithDb ([], [])
    (by intro w hw; cases hw) watchW (by decide)

/-- C8: every string fired on the `bridgeMessages` event channel by any
execution path of `getCompileCommandsPath` carries the `>>> ` metadata
marker and ends with a newline character. -/
theorem getCompileCommandsPath_messageFormat (env : VsEnv)
    (databasePaths : List (Option String)) :
    ∀ m ∈ (getCompileCommandsPath env databasePaths).2,
      ∃ mid, m = ">>> " ++ mid ++ "\n" := by
  intro m hm
  unfold getCompileCommandsPath at hm
  split at hm
  · simp at hm
  · split at hm
    · next filePath _ =>
      simp only [List.mem_singleton] at hm
      refine ⟨"Database found at path: " ++ filePath, ?_⟩
      rw [hm, ← String.append_assoc]
      rfl
    · rcases List.mem_cons.mp hm with h | h
      · refine ⟨"No database found in the following paths:", ?_⟩
        rw [h]
        rfl
      · rcases List.mem_map.mp h with ⟨fp, _, hfp⟩
        cases fp with
        | none =>
          refine ⟨"  <no path set in settings>", ?_⟩
          rw [← hfp]
          rfl
        | some p =>
          by_cases hp : p.isEmpty
          · refine ⟨"  <no path set in settings>", ?_⟩
            rw [← hfp]
            dsimp only
            rw [if_pos hp]
            rfl
          · refine ⟨"  " ++ p, ?_⟩
            rw [← hfp]
            dsimp only
            rw [if_neg hp, ← String.append_assoc]
            rfl

/-- Witness for C8 at a concrete environment and message. -/
theorem getCompileCommandsPath_messageFormat_witness :
    ∃ mid, ">>> Database found at path: /ws/compile_commands.json\n"
      = ">>> " ++ mid ++ "\n" :=
  getCompileCommandsPath_messageFormat envWithDb dbPathsWithDb
    ">>> Database found at path: /ws/compile_commands.json\n" (by decide)

/-- The lookup `getCompileCommandsPath` reads only the workspace folders and the
file system besides the database path list it is given. -/
theorem getCompileCommandsPath_congr (e₁ e₂ : VsEnv)
    (databasePaths : List (Option String))
    (hwf : e₁.workspaceFolders = e₂.workspaceFolders)
    (hfs : e₁.fsExists = e₂.fsExists) :
    getCompileCommandsPath e₁ databasePaths = getCompileCommandsPath e₂ databasePaths := by
  unfold getCompileCommandsPath
  simp only [hwf, hfs]

/-- C9: the user-facing setting `codechecker.backend.compilationDatabasePath`
never affects the computed database path list or the result of
`getCompileCommandsPath` — `updateDatabasePaths` reads the key
`databasePath` under `codechecker.backend` instead, so any two
configurations that differ only in `compilationDatabasePath` make the
bridge behave identically. -/
theorem compilationDatabasePath_noninterference (e₁ e₂ : VsEnv)
    (prev : List (Option String) × List DbWatch)
    (hwf : e₁.workspaceFolders = e₂.workspaceFolders)
    (hfs : e₁.fsExists = e₂.fsExists)
    (hcfg : ∀ sec key, ¬(sec = "codechecker.backend" ∧ key = "compilationDatabasePath") →
        e₁.config sec key = e₂.config sec key) :
    updateDatabasePaths e₁ prev = updateDatabasePaths e₂ prev
    ∧ getCompileCommandsPath e₁ (updateDatabasePaths e₁ prev).1
      = getCompileCommandsPath e₂ (updateDatabasePaths e₂ prev).1 := by
  have hout : e₁.config "codechecker.backend" "outputFolder"
      = e₂.config "codechecker.backend" "outputFolder" := hcfg _ _ (by decide)
  have hdbp : e₁.config "codechecker.backend" "databasePath"
      = e₂.config "codechecker.backend" "databasePath" := hcfg _ _ (by decide)
  have h1 : updateDatabasePaths e₁ prev = updateDatabasePaths e₂ prev := by
    unfold updateDatabasePaths getConfigAndReplaceVariables
    rw [hwf]
    cases e₂.workspaceFolders with
    | nil => rfl
    | cons wf rest =>
      dsimp only
      rw [hout, hdbp]
  refine ⟨h1, ?_⟩
  rw [h1]
  exact getCompileCommandsPath_congr e₁ e₂ (updateDatabasePaths e₂ prev).1 hwf hfs

/-- A configuration that sets only `codechecker.backend.compilationDatabasePath`. -/
def cfgAlt : String → String → Option String := fun sec key =>
  if sec = "codechecker.backend" ∧ key = "compilationDatabasePath" then some "/alt/db.json"
  else none

/-- Variant of `envWithDb` with `compilationDatabasePath` customized. -/
def envAltDb : VsEnv := { envWithDb with config := cfgAlt }

/-- Witness for C9: two concrete configurations differing exactly in
`compilationDatabasePath` drive the bridge identically. -/
theorem compilationDatabasePath_noninterference_witness :
    updateDatabasePaths envWithDb ([], []) = updateDatabasePaths envAltDb ([], [])
    ∧ getCompileCommandsPath envWithDb (updateDatabasePaths envWithDb ([], [])).1
      = getCompileCommandsPath envAltDb (updateDatabasePaths envAltDb ([], [])).1 :=
  compilationDatabasePath_noninterference envWithDb envAltDb ([], []) rfl rfl
    (by
      intro sec key h
      show none = cfgAlt sec key
      unfold cfgAlt
      rw [if_neg h])

/-- C10: in every configuration with a workspace folder open,
`getLogCmdLine` produces a command line whose build command is the
literal string `make` and whose output path is `compile_commands.json`
under the output folder, independently of the
`codechecker.executor.logBuildCommand` and
`codechecker.executor.logArguments` settings; with no workspace folder it
produces nothing. -/
theorem getLogCmdLine_spec (e₁ e₂ : VsEnv)
    (hwf : e₁.workspaceFolders = e₂.workspaceFolders)
    (hcfg : ∀ sec key,
        ¬(sec = "codechecker.executor" ∧ (key = "logBuildCommand" ∨ key = "logArguments")) →
        e₁.config sec key = e₂.config sec key) :
    getLogCmdLine e₁ = getLogCmdLine e₂
    ∧ (e₁.workspaceFolders = [] → getLogCmdLine e₁ = none)
    ∧ (∀ wf rest, e₁.workspaceFolders = wf :: rest →
        getLogCmdLine e₁ = some (
          ((e₁.config "codechecker.executor" "executablePath").getD "CodeChecker")
          ++ " log --output \""
          ++ pathJoin ((e₁.config "codechecker.backend" "outputFolder").getD
              (pathJoin wf ".codechecker")) "compile_commands.json"
          ++ "\" --build \"make\"")) := by
  have hexe : e₁.config "codechecker.executor" "executablePath"
      = e₂.config "codechecker.executor" "executablePath" := hcfg _ _ (by decide)
  have hout : e₁.config "codechecker.backend" "outputFolder"
      = e₂.config "codechecker.backend" "outputFolder" := hcfg _ _ (by decide)
  refine ⟨?_, ?_, ?_⟩
  · unfold getLogCmdLine getConfigAndReplaceVariables
    rw [hwf]
    cases e₂.workspaceFolders with
    | nil => rfl
    | cons wf rest =>
      dsimp only
      rw [hexe, hout]
  · intro h
    unfold getLogCmdLine
    rw [h]
  · intro wf rest h
    unfold getLogCmdLine getConfigAndReplaceVariables
    rw [h]
    dsimp only
    simp only [String.append_assoc]
    rfl

/-- A configuration that sets only the two log-related settings. -/
def cfgAltLog : String → String → Option String := fun sec key =>
  if sec = "codechecker.executor" ∧ (key = "logBuildCommand" ∨ key = "logArguments") then
    some "ninja"
  else none

/-- Variant of `envWithDb` with the log-related settings customized. -/
def envAltLog : VsEnv := { envWithDb with config := cfgAltLog }

/-- Witness for C10 at two concrete configurations differing exactly in
the log-related settings. -/
theorem getLogCmdLine_spec_witness :
    getLogCmdLine envWithDb = getLogCmdLine envAltLog
    ∧ (envWithDb.workspaceFolders = [] → getLogCmdLine envWithDb = none)
    ∧ (∀ wf rest, envWithDb.workspaceFolders = wf :: rest →
        getLogCmdLine envWithDb = some (
          ((envWithDb.config "codechecker.executor" "executablePath").getD "CodeChecker")
          ++ " log --output \""
          ++ pathJoin ((envWithDb.config "codechecker.backend" "outputFolder").getD
              (pathJoin wf ".codechecker")) "compile_commands.json"
          ++ "\" --build \"make\"")) :=
  getLogCmdLine_spec envWithDb envAltLog rfl
    (by
      intro sec key h
      show none = cfgAltLog sec key
      unfold cfgAltLog
      rw [if_neg h])

end CodeCheckerBridge
